import Mathlib

/-!
Verification development for otoole's solution-conversion pipeline.

Embedded sources:
* `src/otoole/results/convert.py` — `ConvertLine` (cplex line → cbc/csv rows),
  `convert_cplex_file`, `convert_dataframe_to_csv`, `check_duplicate_index`,
  `identify_duplicate`, `rename_duplicate_column`.
* `src/otoole/write_strategies.py` — `WriteExcel._form_parameter`.

The repository code runs on CPython: the numeric behaviour of `float(token)`
followed by `str`-formatting is modelled concretely below as `pyFloatStr`
(IEEE-754 binary64, round-to-nearest-even parsing, shortest round-tripping
decimal repr), covering plain finite decimal tokens, which is the shape of
every token the converter meets.  Tokens outside that grammar (e.g. "inf",
digit-group underscores) are treated as parse failures.
-/

/- ------------------------------------------------------------------ -/
/- Model of CPython `float(s)` followed by `str(...)` on the result.   -/
/- ------------------------------------------------------------------ -/

/-- Characters CPython's `float` strips from both ends of its argument. -/
def pySpace : List Char := [' ', '\t', '\n', '\r', '\x0b', '\x0c']

/-- Decimal digit test. -/
def isDigitCh (c : Char) : Bool := '0' ≤ c && c ≤ '9'

/-- Numeric value of a list of decimal digit characters. -/
def digitsVal (ds : List Char) : Nat :=
  ds.foldl (fun a c => a * 10 + (c.toNat - '0'.toNat)) 0

/-- Parse the optional exponent suffix of a float literal (`e`/`E`, an
optional sign and at least one digit), returning the exponent value.
An empty remainder means exponent `0`; anything else is a parse error. -/
def parseExpPart : List Char → Option Int
  | [] => some 0
  | c :: rest =>
    if c = 'e' ∨ c = 'E' then
      match rest with
      | '+' :: ds => if ds ≠ [] ∧ ds.all isDigitCh then some (digitsVal ds) else none
      | '-' :: ds => if ds ≠ [] ∧ ds.all isDigitCh then some (-(digitsVal ds : Int)) else none
      | ds => if ds ≠ [] ∧ ds.all isDigitCh then some (digitsVal ds) else none
    else none

/-- Parse the mantissa of a float literal: digits, an optional point and
fraction digits.  Returns the digits as a natural number, the power-of-ten
offset contributed by the fraction, and the unconsumed remainder. -/
def parseMantPart (cs : List Char) : Option (Nat × Int × List Char) :=
  let ip := cs.takeWhile isDigitCh
  let r1 := cs.dropWhile isDigitCh
  match r1 with
  | '.' :: r2 =>
    let fp := r2.takeWhile isDigitCh
    let r3 := r2.dropWhile isDigitCh
    if ip.isEmpty && fp.isEmpty then none
    else some (digitsVal (ip ++ fp), -(fp.length : Int), r3)
  | _ => if ip.isEmpty then none else some (digitsVal ip, 0, r1)

/-- Parse a finite decimal float token the way CPython's `float` does
(whitespace stripped, optional sign, digits with optional point and
exponent).  Returns sign, mantissa digits and decimal exponent so that the
value is `(-1)^neg * mant * 10^exp10`; `none` models a `ValueError`. -/
def parsePyFloat (s : String) : Option (Bool × Nat × Int) :=
  let cs := ((s.data.dropWhile (· ∈ pySpace)).reverse.dropWhile (· ∈ pySpace)).reverse
  let signard : Bool × List Char :=
    match cs with
    | '-' :: r => (true, r)
    | '+' :: r => (false, r)
    | r => (false, r)
  match parseMantPart signard.2 with
  | none => none
  | some (m, off, rest) =>
    match parseExpPart rest with
    | none => none
    | some e => some (signard.1, m, off + e)

/-- Round the rational `p / q` to the nearest natural number, ties to even
(IEEE-754 default rounding), assuming `q ≠ 0`. -/
def roundHalfEven (p q : Nat) : Nat :=
  let d := p / q
  let r := p % q
  if 2 * r < q then d
  else if q < 2 * r then d + 1
  else if d % 2 = 0 then d else d + 1

/-- Bit length of a natural number, with explicit fuel so that the kernel
can evaluate it. -/
def bitLenAux : Nat → Nat → Nat
  | 0, _ => 0
  | fuel + 1, n => if n = 0 then 0 else bitLenAux fuel (n / 2) + 1

/-- Bit length of a natural number (`0` has length `0`). -/
def bitLen (n : Nat) : Nat := bitLenAux 600 n

/-- A positive binary64 value `m * 2^e` with `2^52 ≤ m < 2^53`. -/
structure FP where
  m : Nat
  e : Int
deriving DecidableEq, Repr

/-- Round `num/den * 2^(-e)` to the nearest natural, ties to even. -/
def scaleRound (num den : Nat) (e : Int) : Nat :=
  if 0 ≤ e then roundHalfEven num (den * 2 ^ e.toNat)
  else roundHalfEven (num * 2 ^ (-e).toNat) den

/-- Try mantissa exponent `e`: succeeds when the rounded mantissa is a
normalised 53-bit significand. -/
def fpTry (num den : Nat) (e : Int) : Option FP :=
  let m := scaleRound num den e
  if 4503599627370496 ≤ m ∧ m < 9007199254740992 then some ⟨m, e⟩ else none

/-- Round the positive rational `num/den` to the nearest binary64
(normal range; the converter's tokens never reach subnormal or overflow
territory). -/
def ratToFP (num den : Nat) : FP :=
  let t : Int := (bitLen num : Int) - (bitLen den : Int)
  match fpTry num den (t - 53) with
  | some fp => fp
  | none =>
    match fpTry num den (t - 52) with
    | some fp => fp
    | none =>
      match fpTry num den (t - 51) with
      | some fp => fp
      | none => ⟨0, 0⟩

/-- Round the decimal `mant * 10^exp10` (with `mant > 0`) to binary64. -/
def decToFP (mant : Nat) (exp10 : Int) : FP :=
  if 0 ≤ exp10 then ratToFP (mant * 10 ^ exp10.toNat) 1
  else ratToFP mant (10 ^ (-exp10).toNat)

/-- Numerator and denominator of the rational value of a binary64. -/
def fpRat (fp : FP) : Nat × Nat :=
  if 0 ≤ fp.e then (fp.m * 2 ^ fp.e.toNat, 1) else (fp.m, 2 ^ (-fp.e).toNat)

/-- Smallest `p` (starting from `p0`) with `den ≤ num * 10^p`, fuelled. -/
def smallestPowAux (num den : Nat) : Nat → Nat → Nat
  | p, 0 => p
  | p, fuel + 1 => if den ≤ num * 10 ^ p then p else smallestPowAux num den (p + 1) fuel

/-- Floor of the decimal logarithm of the positive rational `num/den`. -/
def decExp (num den : Nat) : Int :=
  if den ≤ num then ((Nat.repr (num / den)).length - 1 : Nat)
  else -(smallestPowAux num den 1 400 : Int)

/-- The `n`-significant-digit decimal nearest to `num/den` whose leading
digit sits at decimal exponent `t10`; returns digits `D` and exponent
`e10` with value `D * 10^e10` (renormalising when rounding overflows to
`10^n`). -/
def candDigits (num den : Nat) (t10 : Int) (n : Nat) : Nat × Int :=
  let s : Int := (n : Int) - 1 - t10
  let D := if 0 ≤ s then roundHalfEven (num * 10 ^ s.toNat) den
           else roundHalfEven num (den * 10 ^ (-s).toNat)
  if D = 10 ^ n then (10 ^ (n - 1), t10 + 1 - ((n : Int) - 1))
  else (D, t10 - ((n : Int) - 1))

/-- Search for the shortest decimal (fewest significant digits, nearest
value) that rounds back to the given binary64 — the repr CPython prints. -/
def shortestAux (num den : Nat) (fp : FP) (t10 : Int) : Nat → Nat → Nat × Int
  | _, 0 => candDigits num den t10 17
  | n, fuel + 1 =>
    let c := candDigits num den t10 n
    if decToFP c.1 c.2 = fp then c
    else shortestAux num den fp t10 (n + 1) fuel

/-- Shortest round-tripping decimal digits and exponent for a binary64. -/
def fpShortest (fp : FP) : Nat × Int :=
  let r := fpRat fp
  shortestAux r.1 r.2 fp (decExp r.1 r.2) 1 17

/-- A run of `k` zero characters. -/
def zeroRun (k : Nat) : String := String.mk (List.replicate k '0')

/-- Scientific-notation rendering (CPython style) of digits `s` whose
leading digit has decimal exponent `msd`. -/
def formatSci (s : String) (msd : Int) : String :=
  let mantPart := if s.length = 1 then s else String.mk (s.data.take 1) ++ "." ++ String.mk (s.data.drop 1)
  let a := if msd < 0 then "-" else "+"
  let d := Nat.repr msd.natAbs
  let d2 := if d.length < 2 then "0" ++ d else d
  mantPart ++ "e" ++ a ++ d2

/-- CPython `repr`/`str` rendering of the positive value `D * 10^e10`
(fixed notation in the familiar range, otherwise scientific; integral
values get a trailing `.0`). -/
def formatDec (D : Nat) (e10 : Int) : String :=
  let s := Nat.repr D
  let L : Int := (s.length : Nat)
  let msd : Int := L - 1 + e10
  if msd < -4 ∨ 16 ≤ msd then formatSci s msd
  else if 0 ≤ e10 then s ++ zeroRun e10.toNat ++ ".0"
  else if 0 < L + e10 then
    String.mk (s.data.take (L + e10).toNat) ++ "." ++ String.mk (s.data.drop (L + e10).toNat)
  else "0." ++ zeroRun (-(L + e10)).toNat ++ s

/-- Model of CPython's `str(float(s))` for finite decimal tokens: `none`
models the `ValueError` raised by `float` on unparsable input. -/
def pyFloatStr (s : String) : Option String :=
  match parsePyFloat s with
  | none => none
  | some (neg, mant, exp10) =>
    if mant = 0 then some ((if neg then "-" else "") ++ "0.0")
    else
      let fp := decToFP mant exp10
      let c := fpShortest fp
      some ((if neg then "-" else "") ++ formatDec c.1 c.2)

/- ------------------------------------------------------------------ -/
/- Embedding of src/otoole/results/convert.py                          -/
/- ------------------------------------------------------------------ -/

/-- Python exceptions the embedded code can raise. -/
inductive PyErr where
  | keyError (key : String)
  | indexError
  | valueError (msg : String)
  | unboundLocal (name : String)
deriving DecidableEq, Repr

deriving instance DecidableEq for Except

/-- Python's `str.split(sep)` for a one-character separator: splitting the
empty string yields `[""]`, and separators at the ends yield empty fields. -/
def pySplitAux (sep : Char) : List Char → List Char → List String
  | [], acc => [String.mk acc.reverse]
  | c :: rest, acc =>
    if c = sep then String.mk acc.reverse :: pySplitAux sep rest []
    else pySplitAux sep rest (c :: acc)

/-- Python `line.split(sep)` with a one-character separator. -/
def pySplit (sep : Char) (s : String) : List String := pySplitAux sep s.data []

/-- Python `",".join(parts)`. -/
def joinComma : List String → String
  | [] => ""
  | [x] => x
  | x :: rest => x ++ "," ++ joinComma rest

/-- State of a `ConvertLine` object after `__init__` (convert.py lines
33-39): the raw token list, the year bounds, the output format, and
`number = len(results_config[data[0]]["indices"])`. -/
structure ConvertLine where
  data : List String
  start_year : Int
  end_year : Int
  output_format : String
  number : Nat
deriving DecidableEq, Repr

/-- `ConvertLine.__init__` (convert.py lines 33-39).  `results_config` is
the packaged `otoole.results` `config.yaml`, an external read-only input
modelled as a lookup from variable name to its declared index names; an
unknown variable name raises `KeyError` (Python dict subscript), an empty
token list raises `IndexError` (`self.data[0]`). -/
def ConvertLine.init (results_config : String → Option (List String)) (data : List String)
    (start_year end_year : Int) (output_format : String) : Except PyErr ConvertLine :=
  match data with
  | [] => .error .indexError
  | v :: _ =>
    match results_config v with
    | none => .error (.keyError v)
    | some indices => .ok ⟨data, start_year, end_year, output_format, indices.length⟩

/-- `ConvertLine._do_it` (convert.py lines 41-45): variable name
`data[0]`, dimension tuple `data[1:number]`, value sequence
`data[number:]`.  (`data` is non-empty for every object produced by
`ConvertLine.init`.) -/
def ConvertLine.do_it (self : ConvertLine) : String × List String × List String :=
  (self.data.headD "", (self.data.drop 1).take (self.number - 1), self.data.drop self.number)

/-- The tokens `["0.0", "0", ""]` that convert.py treats as absent values
(lines 63 and 87). -/
def absent_tokens : List String := ["0.0", "0", ""]

/-- The `try: value = float(value) / except ValueError: value = 0` block
(convert.py lines 65-68 and 89-91) followed by the `{}`-formatting of the
result: a parsable token renders as `str(float(token))`, a failing one as
the substituted integer `0`. -/
def pyRenderValue (value : String) : String :=
  match pyFloatStr value with
  | some s => s
  | none => "0"

/-- One csv row, `'{0},"{1}",{2}\n'.format(variable, full_dims, value)`
with `full_dims = ",".join(dimensions + (str(year),))` (lines 70-72). -/
def csvRow (v : String) (dimensions : List String) (year : Int) (value : String) : String :=
  v ++ ",\"" ++ joinComma (dimensions ++ [toString year]) ++ "\"," ++ pyRenderValue value ++ "\n"

/-- One cbc row, `"0 {0}({1}) {2} 0\n".format(...)` (lines 94-96). -/
def cbcRow (v : String) (dimensions : List String) (year : Int) (value : String) : String :=
  "0 " ++ v ++ "(" ++ joinComma (dimensions ++ [toString year]) ++ ") " ++ pyRenderValue value ++ " 0\n"

/-- `ConvertLine.convert_csv` (convert.py lines 54-76): enumerate the
value sequence, keep a slot only when the token is not absent and
`year = start_year + index` does not exceed `end_year`, and render it. -/
def ConvertLine.convert_csv (self : ConvertLine) : List String :=
  (self.do_it.2.2).enum.filterMap fun p =>
    if p.2 ∉ absent_tokens ∧ self.start_year + (p.1 : Int) ≤ self.end_year then
      some (csvRow self.do_it.1 self.do_it.2.1 (self.start_year + (p.1 : Int)) p.2)
    else none

/-- `ConvertLine.convert_cbc` (convert.py lines 78-100): identical
filtering, cbc rendering. -/
def ConvertLine.convert_cbc (self : ConvertLine) : List String :=
  (self.do_it.2.2).enum.filterMap fun p =>
    if p.2 ∉ absent_tokens ∧ self.start_year + (p.1 : Int) ≤ self.end_year then
      some (cbcRow self.do_it.1 self.do_it.2.1 (self.start_year + (p.1 : Int)) p.2)
    else none

/-- `ConvertLine.convert` (convert.py lines 47-52): dispatch on the
output-format string; any other format leaves the local `convert`
unassigned, so `return convert` raises `UnboundLocalError`. -/
def ConvertLine.convert (self : ConvertLine) : Except PyErr (List String) :=
  if self.output_format = "cbc" then .ok self.convert_cbc
  else if self.output_format = "csv" then .ok self.convert_csv
  else .error (.unboundLocal "convert")

/-- The body of one iteration of `convert_cplex_file`'s loop (convert.py
lines 123-128): split the line on tabs, construct the `ConvertLine`, and
convert it. -/
def processLine (results_config : String → Option (List String)) (start_year end_year : Int)
    (output_format : String) (line : String) : Except PyErr (List String) := do
  let row_as_list := pySplit '\t' line
  let convertor ← ConvertLine.init results_config row_as_list start_year end_year output_format
  convertor.convert

/-- The `for linenum, line in enumerate(cplex_file)` loop of
`convert_cplex_file` (lines 121-131): output lines accumulate across
iterations; a `ValueError` is re-raised tagged with the line number
(`"Error caused at line {}: {}"`), while every other exception — in
particular the `KeyError` for an unknown variable name — propagates
untouched and aborts the run. -/
def convertFileLoop (results_config : String → Option (List String)) (start_year end_year : Int)
    (output_format : String) : Nat → List String → List String → Except PyErr (List String)
  | _, [], out => .ok out
  | linenum, line :: rest, out =>
    match processLine results_config start_year end_year output_format line with
    | .ok newLines =>
      convertFileLoop results_config start_year end_year output_format (linenum + 1) rest (out ++ newLines)
    | .error (.valueError _) =>
      .error (.valueError ("Error caused at line " ++ toString linenum ++ ": " ++ line))
    | .error e => .error e

/-- `convert_cplex_file` (convert.py lines 103-131) over the list of lines
of the input file; the returned list is the sequence of lines written to
the output file. -/
def convert_cplex_file (results_config : String → Option (List String)) (file_lines : List String)
    (start_year end_year : Int) (output_format : String) : Except PyErr (List String) :=
  convertFileLoop results_config start_year end_year output_format 0 file_lines []

/- ------------------------------------------------------------------ -/
/- Duplicate-dimension helpers (convert.py lines 251-270)              -/
/- ------------------------------------------------------------------ -/

/-- Python `len(set(l))`: the number of distinct elements of `l`. -/
def pyDistinctLen (l : List String) : Nat :=
  (l.foldl (fun acc x => if x ∈ acc then acc else x :: acc) []).length

/-- `check_duplicate_index` (convert.py lines 251-252):
`len(set(index)) != len(index)`. -/
def check_duplicate_index (index : List String) : Bool :=
  pyDistinctLen index != index.length

/-- The `for counter, elem in enumerate(index)` loop of
`identify_duplicate`, with `elements` the set built so far (membership is
all that Python's `set` contributes). -/
def identifyDupAux (elements : List String) (counter : Nat) : List String → Option Nat
  | [] => none
  | elem :: rest =>
    if elem ∈ elements then some counter
    else identifyDupAux (elem :: elements) (counter + 1) rest

/-- `identify_duplicate` (convert.py lines 255-262): the position of the
first element already seen on a left-to-right scan; `none` models the
`False` returned when there is no repeat. -/
def identify_duplicate (index : List String) : Option Nat := identifyDupAux [] 0 index

/-- `rename_duplicate_column` (convert.py lines 265-270): prefix the
element at the located position with an underscore.  Python's
`if location:` is falsy both for `False` (`none` here) and for the integer
`0`, so a located position of `0` would be left unrenamed. -/
def rename_duplicate_column (index : List String) : List String :=
  match identify_duplicate index with
  | some location =>
    if location ≠ 0 then index.set location ("_" ++ index.getD location "") else index
  | none => index

/- ------------------------------------------------------------------ -/
/- convert_dataframe_to_csv (convert.py lines 156-248)                 -/
/- ------------------------------------------------------------------ -/

/-- One row of the combined CBC results dataframe, columns
`["Variable", "Index", "Value"]`. -/
structure SolutionRow where
  Variable : String
  Index : String
  Value : String
deriving DecidableEq, Repr

/-- A per-variable long-form table after `set_index`: the (possibly
renamed) index column names, the remaining data column names, and the rows
as (index cell values, VALUE cell).  Cell values are kept as their textual
form: the `astype` coercion of convert.py line 203 only changes dtypes,
not which rows or columns exist, and is modelled as the identity on the
text. -/
structure ResultTable where
  index : List String
  columns : List String
  rows : List (List String × String)
deriving DecidableEq, Repr

/-- Pandas `df.empty` for a `ResultTable`. -/
def ResultTable.isEmptyTable (t : ResultTable) : Bool := t.rows.isEmpty

/-- The body of the first loop of `convert_dataframe_to_csv` for one
variable with a non-empty selection (convert.py lines 197-221): split the
composite `Index` string on commas into the declared index columns, keep
`VALUE`, apply the duplicate-name rename to index and column lists, and
set the index. -/
def extractVariable (indices : List String) (dfRows : List SolutionRow) : ResultTable :=
  let rows := dfRows.map fun r => (pySplit ',' r.Index, r.Value)
  let columns := indices ++ ["VALUE"]
  if check_duplicate_index indices then
    let renamedIndex := rename_duplicate_column indices
    let renamedColumns := rename_duplicate_column columns
    ⟨renamedIndex, renamedColumns.drop renamedIndex.length, rows⟩
  else
    ⟨indices, columns.drop indices.length, rows⟩

/-- The first loop of `convert_dataframe_to_csv` (convert.py lines
192-223): walk the results config, extract each variable's rows, and
collect the names with no solver rows into `not_found`. -/
def extractResults (results_config : List (String × List String)) (data : List SolutionRow) :
    List (String × ResultTable) × List String :=
  results_config.foldl
    (fun acc p =>
      let df := data.filter fun r => r.Variable == p.1
      if df.isEmpty then (acc.1, acc.2 ++ [p.1])
      else (acc.1 ++ [(p.1, extractVariable p.2 df)], acc.2))
    ([], [])

/-- The second loop of `convert_dataframe_to_csv` (convert.py lines
229-246).  `results_package` stands for subscripting the `ResultsPackage`
built on line 227; that class lives in `otoole.results.result_package`,
outside the excerpt, and is modelled from the spec as an abstract
derivation registry whose lookup either returns a computed table or
raises.  The source catches only `KeyError` (degrading to an empty frame,
which is then skipped with a warning); any other exception propagates and
aborts the run.  An empty returned table is likewise skipped. -/
def resolveNotFound (results_package : String → Except PyErr ResultTable) :
    List String → List (String × ResultTable) → Except PyErr (List (String × ResultTable))
  | [], results => .ok results
  | name :: rest, results =>
    match results_package name with
    | .ok df =>
      if df.isEmptyTable then resolveNotFound results_package rest results
      else resolveNotFound results_package rest (results ++ [(name, df)])
    | .error (.keyError _) => resolveNotFound results_package rest results
    | .error e => .error e

/-- `convert_dataframe_to_csv` (convert.py lines 156-248): extract the
variables present in the solver output, then try to derive the missing
ones through the results package. -/
def convert_dataframe_to_csv (results_config : List (String × List String))
    (data : List SolutionRow) (results_package : String → Except PyErr ResultTable) :
    Except PyErr (List (String × ResultTable)) :=
  let er := extractResults results_config data
  resolveNotFound results_package er.2 er.1

/- ------------------------------------------------------------------ -/
/- WriteExcel._form_parameter (write_strategies.py lines 19-67)        -/
/- ------------------------------------------------------------------ -/

/-- A pandas dataframe as `WriteExcel` sees it: index level names
(`df.index.names`, entries may be `None`), data column names
(`df.columns`), and rows as (index cell values, data cell values). -/
structure PDataFrame where
  indexNames : List (Option String)
  columns : List String
  rows : List (List String × List String)
deriving DecidableEq, Repr

/-- Pandas `df.empty`: true when either axis has length zero. -/
def PDataFrame.isEmptyDF (df : PDataFrame) : Bool := df.rows.isEmpty || df.columns.isEmpty

/-- Python truthiness of an index level name (`if index_names[0]:`):
`None` and the empty string are falsy. -/
def pyTruthyName : Option String → Bool
  | none => false
  | some s => s != ""

/-- `df.reset_index()` flattened to records: one association list per row
from column label (index levels keep their `Option` label) to cell text. -/
def PDataFrame.records (df : PDataFrame) : List (List (Option String × String)) :=
  df.rows.map fun r => (df.indexNames ++ df.columns.map some).zip (r.1 ++ r.2)

/-- Cell of a record under a label (first match; missing labels give
the empty cell). -/
def recLookup (r : List (Option String × String)) (k : Option String) : String :=
  match r.find? (fun p => p.1 == k) with
  | some p => p.2
  | none => ""

/-- First-occurrence deduplication, preserving order of appearance. -/
def dedupFirst {α : Type} [BEq α] (l : List α) : List α :=
  l.foldl (fun acc x => if acc.contains x then acc else acc ++ [x]) []

/-- Model of `df.reset_index().pivot(index=rows, columns=columns,
values=values)` (write_strategies.py lines 56-58): group the records by
the row keys, spread the pivot column's values across the column axis,
and fill each cell with the matching record's value (blank for a missing
cell; column and row order is order of appearance rather than pandas's
sorted order, which no claim depends on). -/
def pivotTable (records : List (List (Option String × String)))
    (rowKeys : List (Option String)) (colKey valKey : Option String) : PDataFrame :=
  let colVals := dedupFirst (records.map fun r => recLookup r colKey)
  let rowVals := dedupFirst (records.map fun r => rowKeys.map (recLookup r))
  { indexNames := rowKeys
    columns := colVals
    rows := rowVals.map fun rv =>
      (rv, colVals.map fun c =>
        match records.find? (fun r => (rowKeys.map (recLookup r) == rv) && (recLookup r colKey == c)) with
        | some r => recLookup r valKey
        | none => "") }

/-- `WriteExcel._form_parameter` (write_strategies.py lines 19-67): a
non-empty frame whose combined name list (index level names when the
first one is truthy, then data columns) has more than 3 entries is
pivoted with `rows = names[0:-2]`, `columns = names[-2]`,
`values = names[-1]`; otherwise the frame is returned unchanged.  The
unused `default` float argument of the source is omitted. -/
def form_parameter (df : PDataFrame) (parameter_name : String) : PDataFrame :=
  if !df.isEmptyDF then
    let names :=
      if pyTruthyName (df.indexNames.getD 0 none) then df.indexNames ++ df.columns.map some
      else df.columns.map some
    let total_columns := names.length
    if total_columns > 3 then
      pivotTable df.records (names.take (total_columns - 2))
        (names.getD (total_columns - 2) none) (names.getD (total_columns - 1) none)
    else df
  else df

/- ------------------------------------------------------------------ -/
/- Concrete instances used by the claims                               -/
/- ------------------------------------------------------------------ -/

/-- Modelled from the spec: the packaged `otoole.results` `config.yaml`
(read via `read_packaged_file` on convert.py line 38, not part of the
excerpt) declares, per result variable, its ordered index names.  For the
spec's concrete scenario `AnnualCost` is indexed by a region, a
technology and the year. -/
def sampleConfig : String → Option (List String) := fun name =>
  if name = "AnnualCost" then some ["REGION", "TECHNOLOGY", "YEAR"] else none

/-- The raw solver line of the spec's concrete scenario. -/
def cplexLine : String := "AnnualCost\tREGION\tCDBACKSTOP\t1.0\t0.0\t137958.8400384134"

/-- Construct the scenario's `ConvertLine` from the raw line and convert
it under the requested output format. -/
def convertLineOutput (output_format : String) : Except PyErr (List String) :=
  (ConvertLine.init sampleConfig (pySplit '\t' cplexLine) 2015 2070 output_format).bind
    ConvertLine.convert

/-- A results config declaring a two-index variable, used to exercise
`ConvertLine._do_it`'s dimension split on a concrete record. -/
def demoConfig : String → Option (List String) := fun name =>
  if name = "DemoVar" then some ["REGION", "YEAR"] else none

/-- The `ConvertLine` object that `ConvertLine.init demoConfig
["DemoVar", "R1", "1.0"] 2015 2070 "cbc"` produces. -/
def demoCl : ConvertLine := ⟨["DemoVar", "R1", "1.0"], 2015, 2070, "cbc", 2⟩

/-- A `ConvertLine` holding an unparsable value token, for the
coercion-failure claim. -/
def coerceCl : ConvertLine := ⟨["DemoVar", "R1", "abc"], 2015, 2070, "csv", 2⟩

/-- A `ConvertLine` whose output format is neither `"cbc"` nor `"csv"`. -/
def badFmtCl : ConvertLine := ⟨["DemoVar", "R1", "1.0"], 2015, 2070, "xml", 2⟩

/-- The claim's per-slot emission condition: the raw token is not one of
the absent tokens and `start_year ≤ year ≤ end_year` for
`year = start_year + index`. -/
def emitSpec (start_year end_year : Int) (index : Nat) (value : String) : Prop :=
  value ∉ absent_tokens ∧ start_year ≤ start_year + (index : Int) ∧
    start_year + (index : Int) ≤ end_year

instance (sy ey : Int) (i : Nat) (v : String) : Decidable (emitSpec sy ey i v) := by
  unfold emitSpec; infer_instance

/-- A derivation registry whose lookup raises a non-`KeyError` exception,
modelling a derivation rule that fails while computing. -/
def badPackage : String → Except PyErr ResultTable := fun _ => .error (.valueError "boom")

/-- A derivation registry with no rule for any variable: every lookup
raises `KeyError`. -/
def ruleFreePackage : String → Except PyErr ResultTable := fun _ => .error (.keyError "nothing")

/-- An empty frame with a named index, for the pivot-condition witness. -/
def dfEmpty : PDataFrame := ⟨[some "REGION"], ["VALUE"], []⟩

/-- A 4-column frame (2 named index levels, 2 data columns). -/
def dfWide : PDataFrame :=
  ⟨[some "REGION", some "TECHNOLOGY"], ["YEAR", "VALUE"],
    [(["R1", "T1"], ["2015", "1.5"]), (["R1", "T1"], ["2016", "2.5"])]⟩

/- ------------------------------------------------------------------ -/
/- Theorems                                                            -/
/- ------------------------------------------------------------------ -/

set_option maxRecDepth 100000 in
/-- C1 (counterexample): on the spec's concrete line, `convert` with
output format `"cbc"` does not return the two strings the claim lists —
the second value renders with full float precision, not as `137958.84`. -/
theorem c1_counterexample :
    convertLineOutput "cbc" ≠
      Except.ok ["0 AnnualCost(REGION,CDBACKSTOP,2015) 1.0 0\n",
        "0 AnnualCost(REGION,CDBACKSTOP,2017) 137958.84 0\n"] := by
  decide

set_option maxRecDepth 100000 in
/-- C1 (amended): on the line
`AnnualCost\tREGION\tCDBACKSTOP\t1.0\t0.0\t137958.8400384134` with
start_year 2015 and end_year 2070, `convert` returns exactly two rows in
either format — years 2015 and 2017, the zero-valued 2016 slot elided —
and the values render as `str(float(token))`: `1.0` and the
full-precision `137958.8400384134`. -/
theorem c1_concrete_conversion :
    convertLineOutput "cbc" =
      Except.ok ["0 AnnualCost(REGION,CDBACKSTOP,2015) 1.0 0\n",
        "0 AnnualCost(REGION,CDBACKSTOP,2017) 137958.8400384134 0\n"] ∧
    convertLineOutput "csv" =
      Except.ok ["AnnualCost,\"REGION,CDBACKSTOP,2015\",1.0\n",
        "AnnualCost,\"REGION,CDBACKSTOP,2017\",137958.8400384134\n"] := by
  exact ⟨rfl, rfl⟩

/-- C2 (counterexample): for a variable whose schema declares 2 indices,
the parsed dimension tuple of a concrete valid record has length 1, not
2: `data[1:number]` holds `number - 1` tokens. -/
theorem c2_counterexample :
    (ConvertLine.init demoConfig ["DemoVar", "R1", "1.0"] 2015 2070 "cbc").map
        (fun cl => cl.do_it.2.1.length) = .ok 1 ∧
    (demoConfig "DemoVar").map List.length = some 2 ∧ (1 : Nat) ≠ 2 :=
  ⟨rfl, rfl, by decide⟩

/-- C2 (amended): for every record accepted by `ConvertLine.__init__`
whose variable has `k` declared indices and whose token list holds at
least `k` tokens, `_do_it`'s dimension tuple has length `k - 1` — the
last declared index (the year) is supplied per value slot, not by the
line. -/
theorem c2_dimension_split (results_config : String → Option (List String))
    (data : List String) (sy ey : Int) (fmt : String) (cl : ConvertLine)
    (indices : List String)
    (hinit : ConvertLine.init results_config data sy ey fmt = .ok cl)
    (hconf : results_config (data.headD "") = some indices)
    (hlen : indices.length ≤ data.length) :
    cl.do_it.2.1.length = indices.length - 1 := by
  cases data with
  | nil => simp [ConvertLine.init] at hinit
  | cons v rest =>
    simp only [List.headD_cons] at hconf
    simp only [ConvertLine.init, hconf] at hinit
    injection hinit with h
    subst h
    simp only [List.length_cons] at hlen
    simp [ConvertLine.do_it]
    omega

/-- Witness for `c2_dimension_split` on the two-index record
`["DemoVar", "R1", "1.0"]`. -/
theorem c2_dimension_split_witness : demoCl.do_it.2.1.length = 2 - 1 :=
  c2_dimension_split demoConfig ["DemoVar", "R1", "1.0"] 2015 2070 "cbc" demoCl
    ["REGION", "YEAR"] rfl rfl (by decide)

/-- C10: `convert` on an output format other than `"cbc"` and `"csv"`
raises (`UnboundLocalError` on `return convert`); the two recognized
formats return the corresponding rendered lists. -/
theorem c10_format_dispatch (cl : ConvertLine) :
    (cl.output_format ≠ "cbc" → cl.output_format ≠ "csv" →
      cl.convert = .error (.unboundLocal "convert")) ∧
    (cl.output_format = "cbc" → cl.convert = .ok cl.convert_cbc) ∧
    (cl.output_format = "csv" → cl.convert = .ok cl.convert_csv) := by
  unfold ConvertLine.convert
  refine ⟨fun h1 h2 => ?_, fun h => ?_, fun h => ?_⟩
  · rw [if_neg h1, if_neg h2]
  · rw [if_pos h]
  · have h1 : cl.output_format ≠ "cbc" := by rw [h]; decide
    rw [if_neg h1, if_pos h]

/-- Witness for `c10_format_dispatch`: the format `"xml"` raises. -/
theorem c10_format_dispatch_witness :
    badFmtCl.convert = .error (.unboundLocal "convert") :=
  (c10_format_dispatch badFmtCl).1 (by decide) (by decide)

/-- Python's `split` never returns an empty list. -/
lemma pySplitAux_ne_nil (sep : Char) (cs acc : List Char) : pySplitAux sep cs acc ≠ [] := by
  induction cs generalizing acc with
  | nil => simp [pySplitAux]
  | cons c rest ih =>
    simp only [pySplitAux]
    split
    · simp
    · exact ih (c :: acc)

/-- A successful file conversion processed every line successfully: no
line is skipped. -/
lemma convertFileLoop_ok_all (results_config : String → Option (List String))
    (sy ey : Int) (fmt : String) :
    ∀ (file_lines : List String) (k : Nat) (acc out : List String),
      convertFileLoop results_config sy ey fmt k file_lines acc = .ok out →
      ∀ line ∈ file_lines, ∃ res, processLine results_config sy ey fmt line = .ok res := by
  intro file_lines
  induction file_lines with
  | nil => intro k acc out _ line hline; simp at hline
  | cons l rest ih =>
    intro k acc out h line hline
    simp only [convertFileLoop] at h
    cases hp : processLine results_config sy ey fmt l with
    | ok newLines =>
      rw [hp] at h
      rcases List.mem_cons.mp hline with hl | hl
      · exact ⟨newLines, hl ▸ hp⟩
      · exact ih (k + 1) (acc ++ newLines) out h line hl
    | error e =>
      rw [hp] at h
      cases e <;> simp at h

/-- If every line before position `i` processes successfully and line `i`
fails with a `KeyError`, the whole loop returns that bare `KeyError`:
the `except ValueError` wrapper does not tag it with a line number. -/
lemma convertFileLoop_keyError (results_config : String → Option (List String))
    (sy ey : Int) (fmt : String) (key : String) :
    ∀ (file_lines : List String) (i k : Nat) (acc : List String),
      i < file_lines.length →
      (∀ j, j < i → ∃ res, processLine results_config sy ey fmt (file_lines.getD j "") = .ok res) →
      processLine results_config sy ey fmt (file_lines.getD i "") = .error (.keyError key) →
      convertFileLoop results_config sy ey fmt k file_lines acc = .error (.keyError key) := by
  intro file_lines
  induction file_lines with
  | nil => intro i k acc hi; simp at hi
  | cons l rest ih =>
    intro i k acc hi hprev hfail
    cases i with
    | zero =>
      simp only [List.getD_cons_zero] at hfail
      simp only [convertFileLoop, hfail]
    | succ i' =>
      obtain ⟨res, hres⟩ := hprev 0 (Nat.succ_pos i')
      simp only [List.getD_cons_zero] at hres
      simp only [convertFileLoop, hres]
      simp only [List.getD_cons_succ] at hfail
      refine ih i' (k + 1) (acc ++ res) (Nat.lt_of_succ_lt_succ hi) ?_ hfail
      intro j hj
      have := hprev (j + 1) (Nat.succ_lt_succ hj)
      simpa using this

/-- If every line before position `i` processes successfully and line `i`
fails with a `ValueError`, the loop re-raises a `ValueError` whose
message names the line number (`k + i` with `k` the starting counter). -/
lemma convertFileLoop_valueError (results_config : String → Option (List String))
    (sy ey : Int) (fmt : String) (msg : String) :
    ∀ (file_lines : List String) (i k : Nat) (acc : List String),
      i < file_lines.length →
      (∀ j, j < i → ∃ res, processLine results_config sy ey fmt (file_lines.getD j "") = .ok res) →
      processLine results_config sy ey fmt (file_lines.getD i "") = .error (.valueError msg) →
      convertFileLoop results_config sy ey fmt k file_lines acc =
        .error (.valueError ("Error caused at line " ++ toString (k + i) ++ ": " ++ file_lines.getD i "")) := by
  intro file_lines
  induction file_lines with
  | nil => intro i k acc hi; simp at hi
  | cons l rest ih =>
    intro i k acc hi hprev hfail
    cases i with
    | zero =>
      simp only [List.getD_cons_zero] at hfail ⊢
      simp only [convertFileLoop, hfail, Nat.add_zero]
    | succ i' =>
      obtain ⟨res, hres⟩ := hprev 0 (Nat.succ_pos i')
      simp only [List.getD_cons_zero] at hres
      simp only [convertFileLoop, hres]
      simp only [List.getD_cons_succ] at hfail ⊢
      have hcount : k + (i' + 1) = (k + 1) + i' := by omega
      rw [hcount]
      refine ih i' (k + 1) (acc ++ res) (Nat.lt_of_succ_lt_succ hi) ?_ hfail
      intro j hj
      have := hprev (j + 1) (Nat.succ_lt_succ hj)
      simpa using this

/-- A line whose first token the schema does not know fails with a
`KeyError` naming that token. -/
lemma processLine_unknown (results_config : String → Option (List String))
    (sy ey : Int) (fmt : String) (line : String)
    (h : results_config ((pySplit '\t' line).headD "") = none) :
    processLine results_config sy ey fmt line =
      .error (.keyError ((pySplit '\t' line).headD "")) := by
  cases hsplit : pySplit '\t' line with
  | nil => exact absurd hsplit (pySplitAux_ne_nil '\t' line.data [])
  | cons v rest =>
    rw [hsplit] at h
    simp only [List.headD_cons] at h ⊢
    simp [processLine, hsplit, ConvertLine.init, h, Bind.bind, Except.bind]

/-- C3: the run aborts on the first failing line — a successful result
means every line was processed (conjunct 1); a `ValueError` is re-raised
tagged with the originating line number (conjunct 2); but a line whose
first token is a variable name unknown to the schema raises a bare
`KeyError` naming the token (conjuncts 3 and 4), which the
`except ValueError` wrapper does not catch, so the abort carries no line
number for that — the most common — malformation. -/
theorem c3_abort_behaviour (results_config : String → Option (List String))
    (file_lines : List String) (sy ey : Int) (fmt : String) :
    (∀ out, convert_cplex_file results_config file_lines sy ey fmt = .ok out →
      ∀ line ∈ file_lines, ∃ res, processLine results_config sy ey fmt line = .ok res) ∧
    (∀ i msg, i < file_lines.length →
      (∀ j, j < i → ∃ res, processLine results_config sy ey fmt (file_lines.getD j "") = .ok res) →
      processLine results_config sy ey fmt (file_lines.getD i "") = .error (.valueError msg) →
      convert_cplex_file results_config file_lines sy ey fmt =
        .error (.valueError ("Error caused at line " ++ toString i ++ ": " ++ file_lines.getD i ""))) ∧
    (∀ i key, i < file_lines.length →
      (∀ j, j < i → ∃ res, processLine results_config sy ey fmt (file_lines.getD j "") = .ok res) →
      processLine results_config sy ey fmt (file_lines.getD i "") = .error (.keyError key) →
      convert_cplex_file results_config file_lines sy ey fmt = .error (.keyError key)) ∧
    (∀ line, results_config ((pySplit '\t' line).headD "") = none →
      processLine results_config sy ey fmt line =
        .error (.keyError ((pySplit '\t' line).headD ""))) := by
  refine ⟨?_, ?_, ?_, ?_⟩
  · intro out h
    exact convertFileLoop_ok_all results_config sy ey fmt file_lines 0 [] out h
  · intro i msg hi hprev hfail
    have := convertFileLoop_valueError results_config sy ey fmt msg file_lines i 0 [] hi hprev hfail
    rwa [Nat.zero_add] at this
  · intro i key hi hprev hfail
    exact convertFileLoop_keyError results_config sy ey fmt key file_lines i 0 [] hi hprev hfail
  · intro line h
    exact processLine_unknown results_config sy ey fmt line h

/-- Witness for `c3_abort_behaviour`: a one-line file with the unknown
variable `NoSuchVar` makes the whole conversion return the bare
`KeyError`. -/
theorem c3_abort_behaviour_witness :
    convert_cplex_file sampleConfig ["NoSuchVar\t2.0"] 2015 2070 "cbc" =
      .error (.keyError "NoSuchVar") :=
  (c3_abort_behaviour sampleConfig ["NoSuchVar\t2.0"] 2015 2070 "cbc").2.2.1 0 "NoSuchVar"
    (by decide) (fun j hj => absurd hj (Nat.not_lt_zero j)) rfl

/-- C3 (counterexample): a file whose single line names a variable
unknown to the schema aborts with `KeyError "UnknownVar"` — an error that
carries no line number at all (`PyErr.keyError` has only the key field),
because `KeyError` is not caught by the `except ValueError` wrapper that
does the line-number tagging. -/
theorem c3_counterexample :
    convert_cplex_file sampleConfig ["UnknownVar\t1.0"] 2015 2070 "cbc" =
      .error (.keyError "UnknownVar") := rfl

/-- Shared characterization: `convert_csv` renders exactly the enumerated
value slots that survive the token/year filter. -/
lemma convert_csv_eq (cl : ConvertLine) :
    cl.convert_csv =
      ((cl.do_it.2.2.enum.filter fun p =>
          decide (p.2 ∉ absent_tokens ∧ cl.start_year + (p.1 : Int) ≤ cl.end_year)).map
        fun p => csvRow cl.do_it.1 cl.do_it.2.1 (cl.start_year + (p.1 : Int)) p.2) := by
  unfold ConvertLine.convert_csv
  induction cl.do_it.2.2.enum with
  | nil => rfl
  | cons p rest ih =>
    simp only [List.filterMap_cons, List.filter_cons]
    by_cases h : p.2 ∉ absent_tokens ∧ cl.start_year + (p.1 : Int) ≤ cl.end_year
    · rw [if_pos h]
      simp only [decide_eq_true h, List.map_cons]
      exact congrArg _ ih
    · rw [if_neg h]
      simp only [decide_eq_false h]
      exact ih

/-- Shared characterization: `convert_cbc` renders exactly the same
surviving slots as `convert_csv`, in cbc layout. -/
lemma convert_cbc_eq (cl : ConvertLine) :
    cl.convert_cbc =
      ((cl.do_it.2.2.enum.filter fun p =>
          decide (p.2 ∉ absent_tokens ∧ cl.start_year + (p.1 : Int) ≤ cl.end_year)).map
        fun p => cbcRow cl.do_it.1 cl.do_it.2.1 (cl.start_year + (p.1 : Int)) p.2) := by
  unfold ConvertLine.convert_cbc
  induction cl.do_it.2.2.enum with
  | nil => rfl
  | cons p rest ih =>
    simp only [List.filterMap_cons, List.filter_cons]
    by_cases h : p.2 ∉ absent_tokens ∧ cl.start_year + (p.1 : Int) ≤ cl.end_year
    · rw [if_pos h]
      simp only [decide_eq_true h, List.map_cons]
      exact congrArg _ ih
    · rw [if_neg h]
      simp only [decide_eq_false h]
      exact ih

/-- C5: both renderers emit a row for an enumerated value slot exactly
when `emitSpec` holds for it — the token is outside `{"", "0", "0.0"}`
and `start_year ≤ year ≤ end_year` (the code's `year <= end_year` test is
equivalent because `year = start_year + index ≥ start_year` always); in
particular a slot at year `end_year` survives and one at `end_year + 1`
does not, and an absent token never produces a row. -/
theorem c5_emission_filter (cl : ConvertLine) :
    cl.convert_csv =
      ((cl.do_it.2.2.enum.filter fun p =>
          decide (emitSpec cl.start_year cl.end_year p.1 p.2)).map
        fun p => csvRow cl.do_it.1 cl.do_it.2.1 (cl.start_year + (p.1 : Int)) p.2) ∧
    cl.convert_cbc =
      ((cl.do_it.2.2.enum.filter fun p =>
          decide (emitSpec cl.start_year cl.end_year p.1 p.2)).map
        fun p => cbcRow cl.do_it.1 cl.do_it.2.1 (cl.start_year + (p.1 : Int)) p.2) := by
  have hcond : ∀ p : Nat × String,
      decide (p.2 ∉ absent_tokens ∧ cl.start_year + (p.1 : Int) ≤ cl.end_year) =
        decide (emitSpec cl.start_year cl.end_year p.1 p.2) := by
    intro p
    have : (p.2 ∉ absent_tokens ∧ cl.start_year + (p.1 : Int) ≤ cl.end_year) ↔
        emitSpec cl.start_year cl.end_year p.1 p.2 := by
      unfold emitSpec
      constructor
      · rintro ⟨h1, h2⟩
        exact ⟨h1, Int.le_add_of_nonneg_right (Int.ofNat_nonneg p.1), h2⟩
      · rintro ⟨h1, _, h3⟩
        exact ⟨h1, h3⟩
    exact decide_eq_decide.mpr this
  constructor
  · rw [convert_csv_eq cl]
    exact congrArg _ (List.filter_congr fun p _ => hcond p)
  · rw [convert_cbc_eq cl]
    exact congrArg _ (List.filter_congr fun p _ => hcond p)

/-- C7: the two renderers filter identically, so for every record they
return lists of the same length — one rendered row per surviving slot. -/
theorem c7_same_row_count (cl : ConvertLine) :
    cl.convert_cbc.length = cl.convert_csv.length := by
  rw [convert_csv_eq cl, convert_cbc_eq cl]
  simp [List.length_map]

/-- C8: a value token that passes the absent-token and year filters but
fails numeric coercion does not raise: the renderers substitute zero
(rendered `0`) for it and still emit the row in both formats. -/
theorem c8_coercion_failure (cl : ConvertLine) (i : Nat)
    (hi : i < cl.do_it.2.2.length)
    (habs : cl.do_it.2.2.getD i "" ∉ absent_tokens)
    (hyr : cl.start_year + (i : Int) ≤ cl.end_year)
    (hfail : pyFloatStr (cl.do_it.2.2.getD i "") = none) :
    pyRenderValue (cl.do_it.2.2.getD i "") = "0" ∧
    csvRow cl.do_it.1 cl.do_it.2.1 (cl.start_year + (i : Int)) (cl.do_it.2.2.getD i "") ∈
      cl.convert_csv ∧
    cbcRow cl.do_it.1 cl.do_it.2.1 (cl.start_year + (i : Int)) (cl.do_it.2.2.getD i "") ∈
      cl.convert_cbc := by
  have h1 : cl.do_it.2.2[i]? = some cl.do_it.2.2[i] := List.getElem?_eq_getElem hi
  have h2 : cl.do_it.2.2.getD i "" = cl.do_it.2.2[i] := by
    simp [List.getD_eq_getElem?_getD, h1]
  have hmem : (i, cl.do_it.2.2.getD i "") ∈ cl.do_it.2.2.enum := by
    rw [List.mk_mem_enum_iff_getElem?, h2, h1]
  refine ⟨?_, ?_, ?_⟩
  · unfold pyRenderValue
    rw [hfail]
  · unfold ConvertLine.convert_csv
    exact List.mem_filterMap.mpr ⟨(i, cl.do_it.2.2.getD i ""), hmem, if_pos ⟨habs, hyr⟩⟩
  · unfold ConvertLine.convert_cbc
    exact List.mem_filterMap.mpr ⟨(i, cl.do_it.2.2.getD i ""), hmem, if_pos ⟨habs, hyr⟩⟩

/-- Witness for `c8_coercion_failure` on the unparsable token `"abc"`. -/
theorem c8_coercion_failure_witness :
    pyRenderValue "abc" = "0" ∧
    csvRow "DemoVar" ["R1"] 2015 "abc" ∈ coerceCl.convert_csv ∧
    cbcRow "DemoVar" ["R1"] 2015 "abc" ∈ coerceCl.convert_cbc :=
  c8_coercion_failure coerceCl 0 (by decide) (by decide) (by decide) rfl

/-- C4 (counterexample): a derivation rule that raises a non-`KeyError`
exception is not caught — `convert_dataframe_to_csv` propagates it and
produces no results at all, contradicting the claim that such failures
are always absorbed. -/
theorem c4_counterexample :
    convert_dataframe_to_csv [("DemoResult", ["REGION"])] [] badPackage =
      .error (.valueError "boom") := rfl

/-- As long as every derivation failure is a `KeyError`, the second loop
of `convert_dataframe_to_csv` finishes and keeps every extracted table. -/
lemma resolveNotFound_ok (results_package : String → Except PyErr ResultTable)
    (h : ∀ n e, results_package n = .error e → ∃ key, e = .keyError key) :
    ∀ (names : List String) (results : List (String × ResultTable)),
      ∃ res, resolveNotFound results_package names results = .ok res ∧
        ∀ p ∈ results, p ∈ res := by
  intro names
  induction names with
  | nil => exact fun results => ⟨results, rfl, fun p hp => hp⟩
  | cons name rest ih =>
    intro results
    cases hp : results_package name with
    | ok df =>
      by_cases hemp : df.isEmptyTable
      · obtain ⟨res, heq, hsub⟩ := ih results
        refine ⟨res, ?_, hsub⟩
        simp only [resolveNotFound, hp]
        rw [if_pos hemp]
        exact heq
      · obtain ⟨res, heq, hsub⟩ := ih (results ++ [(name, df)])
        refine ⟨res, ?_, ?_⟩
        · simp only [resolveNotFound, hp]
          rw [if_neg hemp]
          exact heq
        · exact fun p hp2 => hsub p (List.mem_append_left _ hp2)
    | error e =>
      obtain ⟨key, hkey⟩ := h name e hp
      subst hkey
      obtain ⟨res, heq, hsub⟩ := ih results
      refine ⟨res, ?_, hsub⟩
      simp only [resolveNotFound, hp]
      exact heq

/-- C4 (amended): when every failing derivation raises `KeyError` — the
only exception the source catches — missing and `KeyError`-failing rules
degrade to a skipped (empty) table and the run completes, keeping the
results of every variable found in the solver output. -/
theorem c4_only_keyerror_caught (results_config : List (String × List String))
    (data : List SolutionRow) (results_package : String → Except PyErr ResultTable)
    (h : ∀ n e, results_package n = .error e → ∃ key, e = .keyError key) :
    ∃ res, convert_dataframe_to_csv results_config data results_package = .ok res ∧
      ∀ p ∈ (extractResults results_config data).1, p ∈ res := by
  unfold convert_dataframe_to_csv
  exact resolveNotFound_ok results_package h (extractResults results_config data).2
    (extractResults results_config data).1

/-- Witness for `c4_only_keyerror_caught`: with no solver rows and no
derivation rules (`KeyError` everywhere) the conversion still returns. -/
theorem c4_only_keyerror_caught_witness :
    ∃ res, convert_dataframe_to_csv [("DemoResult2", ["REGION"])] [] ruleFreePackage = .ok res ∧
      ∀ p ∈ (extractResults [("DemoResult2", ["REGION"])] []).1, p ∈ res :=
  c4_only_keyerror_caught [("DemoResult2", ["REGION"])] [] ruleFreePackage
    (fun _ e he => ⟨"nothing", (Except.error.inj he).symm⟩)

/-- Scanning a block of pairwise-distinct elements disjoint from the seen
set just moves them into the seen set and advances the counter. -/
lemma identifyDupAux_append (A : List String) :
    ∀ (seen : List String) (c : Nat) (rest : List String),
      A.Nodup → (∀ a ∈ A, a ∉ seen) →
      identifyDupAux seen c (A ++ rest) =
        identifyDupAux (A.reverse ++ seen) (c + A.length) rest := by
  induction A with
  | nil => intro seen c rest _ _; simp
  | cons a A' ih =>
    intro seen c rest hnd hdisj
    have haA : a ∉ A' := (List.nodup_cons.mp hnd).1
    have hdisj' : ∀ b ∈ A', b ∉ a :: seen := by
      intro b hb
      simp only [List.mem_cons]
      rintro (hba | hbs)
      · exact haA (hba ▸ hb)
      · exact hdisj b (List.mem_cons_of_mem a hb) hbs
    simp only [List.cons_append, identifyDupAux, List.append_eq]
    rw [if_neg (hdisj a (List.mem_cons_self a A'))]
    rw [ih (a :: seen) (c + 1) rest (List.nodup_cons.mp hnd).2 hdisj']
    congr 1
    · simp
    · simp only [List.length_cons]
      omega

/-- Element at the position just past a prefix. -/
lemma getD_len_append (P : List String) (y : String) (C : List String) (d : String) :
    (P ++ y :: C).getD P.length d = y := by
  induction P with
  | nil => rfl
  | cons p P' ih => simpa using ih

/-- Setting the position just past a prefix replaces the head of the
suffix. -/
lemma set_len_append (P : List String) (y v : String) (C : List String) :
    (P ++ y :: C).set P.length v = P ++ v :: C := by
  induction P with
  | nil => rfl
  | cons p P' ih =>
    show p :: (P' ++ y :: C).set P'.length v = p :: (P' ++ v :: C)
    exact congrArg _ ih

/-- C6: for a dimension list in which exactly one name `x` appears twice
(everything else pairwise distinct and different from `x`),
`rename_duplicate_column` returns the input with exactly one element
changed: the second occurrence of `x` is prefixed with an underscore, the
first is untouched. -/
theorem c6_rename_second_occurrence (A B C : List String) (x : String)
    (hnd : (A ++ B ++ C).Nodup) (hx : x ∉ A ++ B ++ C) :
    rename_duplicate_column ((A ++ x :: B) ++ x :: C) =
      (A ++ x :: B) ++ ("_" ++ x) :: C := by
  have hxA : x ∉ A := fun h => hx (by simp [h])
  have hxB : x ∉ B := fun h => hx (by simp [h])
  have hAnd : A.Nodup := ((List.nodup_append.mp ((List.nodup_append.mp hnd).1)).1)
  have hBnd : B.Nodup := ((List.nodup_append.mp ((List.nodup_append.mp hnd).1)).2.1)
  have hdisjAB : ∀ b ∈ B, b ∉ A := by
    intro b hb hba
    exact (List.nodup_append.mp ((List.nodup_append.mp hnd).1)).2.2 hba hb
  have hxseen : x ∉ A.reverse ++ ([] : List String) := by
    simp only [List.append_nil, List.mem_reverse]
    exact hxA
  have hdisjBseen : ∀ b ∈ B, b ∉ x :: (A.reverse ++ ([] : List String)) := by
    intro b hb
    simp only [List.mem_cons, List.append_nil, List.mem_reverse]
    rintro (hbx | hbA)
    · exact hxB (hbx ▸ hb)
    · exact hdisjAB b hb hbA
  have hid : identify_duplicate ((A ++ x :: B) ++ x :: C) =
      some (A.length + 1 + B.length) := by
    unfold identify_duplicate
    rw [List.append_assoc, List.cons_append]
    rw [identifyDupAux_append A [] 0 (x :: (B ++ x :: C)) hAnd (by simp)]
    simp only [identifyDupAux, List.append_eq]
    rw [if_neg hxseen]
    rw [identifyDupAux_append B (x :: (A.reverse ++ [])) (0 + A.length + 1) (x :: C) hBnd
      hdisjBseen]
    simp only [identifyDupAux]
    rw [if_pos (List.mem_append_right _ (List.mem_cons_self _ _))]
    congr 1
    omega
  unfold rename_duplicate_column
  simp only [hid]
  rw [if_pos (show A.length + 1 + B.length ≠ 0 by omega)]
  have hlenP : A.length + 1 + B.length = (A ++ x :: B).length := by
    simp only [List.length_append, List.length_cons]
    omega
  rw [hlenP, getD_len_append, set_len_append]

/-- Witness for `c6_rename_second_occurrence` on
`["a", "r", "r", "b"]`. -/
theorem c6_rename_second_occurrence_witness :
    rename_duplicate_column ["a", "r", "r", "b"] = ["a", "r", "_r", "b"] :=
  c6_rename_second_occurrence ["a"] [] ["b"] "r" (by decide) (by decide)

/-- C9: `_form_parameter` leaves every empty frame unchanged; for a
non-empty frame whose first index level name is truthy, it pivots exactly
when the total column count (index level names plus data columns) exceeds
3 — the last-but-one name becomes the column axis, the last becomes the
cell values, and the remaining names the row index — and otherwise
returns the frame unchanged in long form. -/
theorem c9_pivot_condition (df : PDataFrame) (parameter_name : String) :
    (df.isEmptyDF = true → form_parameter df parameter_name = df) ∧
    (df.isEmptyDF = false → pyTruthyName (df.indexNames.getD 0 none) = true →
      df.indexNames.length + df.columns.length ≤ 3 →
      form_parameter df parameter_name = df) ∧
    (df.isEmptyDF = false → pyTruthyName (df.indexNames.getD 0 none) = true →
      3 < df.indexNames.length + df.columns.length →
      form_parameter df parameter_name =
        pivotTable df.records
          ((df.indexNames ++ df.columns.map some).take
            (df.indexNames.length + df.columns.length - 2))
          ((df.indexNames ++ df.columns.map some).getD
            (df.indexNames.length + df.columns.length - 2) none)
          ((df.indexNames ++ df.columns.map some).getD
            (df.indexNames.length + df.columns.length - 1) none)) := by
  have hlen : (df.indexNames ++ df.columns.map some).length =
      df.indexNames.length + df.columns.length := by
    simp [List.length_append, List.length_map]
  refine ⟨?_, ?_, ?_⟩
  · intro h
    simp [form_parameter, h]
  · intro hemp htru hle
    simp only [form_parameter, hemp, Bool.not_false, if_true, htru]
    rw [if_neg]
    rw [hlen]
    omega
  · intro hemp htru hgt
    simp only [form_parameter, hemp, Bool.not_false, if_true, htru]
    rw [if_pos]
    · rw [hlen]
    · rw [hlen]
      omega

/-- Witness for `c9_pivot_condition`: the 4-column frame pivots, the
empty frame is returned unchanged. -/
theorem c9_pivot_condition_witness :
    form_parameter dfWide "AnnualDemo" =
      pivotTable dfWide.records
        ((dfWide.indexNames ++ dfWide.columns.map some).take
          (dfWide.indexNames.length + dfWide.columns.length - 2))
        ((dfWide.indexNames ++ dfWide.columns.map some).getD
          (dfWide.indexNames.length + dfWide.columns.length - 2) none)
        ((dfWide.indexNames ++ dfWide.columns.map some).getD
          (dfWide.indexNames.length + dfWide.columns.length - 1) none) ∧
    form_parameter dfEmpty "AnnualDemo" = dfEmpty :=
  ⟨(c9_pivot_condition dfWide "AnnualDemo").2.2 (by decide) (by decide) (by decide),
    (c9_pivot_condition dfEmpty "AnnualDemo").1 (by decide)⟩
